import Mathlib

/-!
Shallow embedding of `monitor.py` (FTTH ticket / subscription monitor).

The embedding models one `Monitor.run()` invocation as a pure function
from the persisted state (known-tickets file, subscription-state file,
session file contents) and the run's external inputs (current time, the
ticket-API fetch outcome, the per-page subscription-API responses) to the
new persisted state, the sequence of outbound messages, and an outcome.

Modelling notes, each tied to the source:

* Timestamps are integer epoch seconds (`Int`).  The age check at
  monitor.py:935-937 compares `(now - created).total_seconds() / 3600 >
  MAX_TICKET_AGE_HOURS`, which over the integers is
  `now - created > MAX_TICKET_AGE_HOURS * 3600`.
* A ticket's `displayId` is a `String`, with `""` standing for a missing
  or empty (falsy) value, matching the truthiness tests
  `t.get('displayId')` at monitor.py:907 and :920.
* A ticket's `createdAt` is `Option Int`: `none` models a missing,
  empty, or unparseable `createdAt` string (in all three cases the code
  falls through the age filter and proceeds to the notification step,
  monitor.py:930-941).
* `Telegram.format` (monitor.py:398-422) evaluates
  `timezone(timedelta(hours=3))` at line 403, but monitor.py imports only
  `datetime` and `timezone` from the `datetime` module (line 17);
  `timedelta` is unbound, so every call of `Telegram.format` raises
  `NameError`.  The exception is raised before `send_to_all` is entered
  and `Monitor.run`'s `try` block has no `except` (only `finally`), so
  the run aborts.  `formatTicket` therefore returns `none`
  unconditionally, and `processNewTickets` aborts (`Except.error`) at
  the first ticket that reaches the notification step.
* Python `str.lower()` is modelled by per-character ASCII-range
  lowercasing (`pyLower`); the status vocabulary compared against
  consists of ASCII and Arabic strings, on which the two agree (Arabic
  has no case).
-/

/-- Constant `MAX_TICKET_AGE_HOURS` (monitor.py:24). -/
def MAX_TICKET_AGE_HOURS : Int := 24

/-- Constant `page_size` used by `_fetch_subscriptions_api` (monitor.py:813). -/
def SUB_PAGE_SIZE : Nat := 100

/-- Minimum seconds between runs (monitor.py:884). -/
def MIN_RUN_INTERVAL : Int := 300

/-- A fetched ticket, restricted to the fields `Monitor.run` consumes:
`displayId` (`""` = missing/empty, i.e. falsy) and the parsed creation
timestamp (`none` = missing or unparseable `createdAt`). -/
structure Ticket where
  displayId : String
  createdAt : Option Int
deriving DecidableEq

/-- A fetched subscription, restricted to the fields `get_changes`
consumes: `sub['self']['id']` (`selfId`), the top-level `sub['id']`
(`plainId`), and the raw `status` string. -/
structure Subscription where
  selfId : Option String
  plainId : Option String
  status : String
deriving DecidableEq

/-- Expression `sub.get('self', default).get('id') or sub.get('id')` followed by the
falsiness test `if not sub_id: continue` (monitor.py:272,275-276): the
first truthy candidate, `none` when both are missing or empty. -/
def getSubId (s : Subscription) : Option String :=
  let fb : Option String :=
    match s.plainId with
    | some v => if v = "" then none else some v
    | none => none
  match s.selfId with
  | some v => if v = "" then fb else some v
  | none => fb

/-- Status normalization (monitor.py:278-282): map the lowercased raw
status into `"active"` / `"expired"`, leaving unrecognized strings
unchanged (passthrough). -/
def normalizeStatus (s : String) : String :=
  if s = "active" ∨ s = "نشط" ∨ s = "جاري" then "active"
  else if s = "expired" ∨ s = "منتهي" ∨ s = "منتهية" then "expired"
  else s

/-- Lookup in the stored subscription map (`self.subscriptions.get(sub_id)`,
monitor.py:284), modelled over an association list. -/
def lookupA : List (String × String) → String → Option String
  | [], _ => none
  | (k, v) :: rest, key => if k = key then some v else lookupA rest key

/-- Python `str.lower()` applied to a status string, modelled as
per-character lowercasing (`Char.toLower` is ASCII-range; the status
vocabulary involved is ASCII and Arabic, on which this agrees with
Python). -/
def pyLower (s : String) : String := String.mk (s.data.map Char.toLower)

/-- Normalized current status of a fetched subscription
(monitor.py:273,278-282): the raw status, lowercased, then normalized. -/
def curStatus (sub : Subscription) : String := normalizeStatus (pyLower sub.status)

/-- Assignment `self.subscriptions[sub_id] = current_status` (monitor.py:289,296):
replace the binding for `key` if present, else append. -/
def insertA (key val : String) : List (String × String) → List (String × String)
  | [] => [(key, val)]
  | (k, v) :: rest =>
    if k = key then (key, val) :: rest else (k, v) :: insertA key val rest

/-- The value returned by `SubscriptionState.get_changes`
(monitor.py:262-298): the three diff lists plus the mutated
`self.subscriptions` map. -/
structure ChangeResult where
  expired : List Subscription
  renewed : List Subscription
  newSubs : List Subscription
  subs : List (String × String)
deriving DecidableEq

/-- Method `SubscriptionState.get_changes` (monitor.py:262-298).  For each
fetched subscription: skip falsy ids; normalize the lowercased status;
an id absent from the stored map is appended to `new_subs` and stored;
a present id with a changed status is appended to `expired` (active →
expired) or `renewed` (expired → active) — any other changed combination
is stored silently; an unchanged status leaves the map untouched. -/
def getChanges (subs : List (String × String)) : List Subscription → ChangeResult
  | [] => ⟨[], [], [], subs⟩
  | sub :: rest =>
    match getSubId sub with
    | none => getChanges subs rest
    | some sid =>
      let cur := curStatus sub
      match lookupA subs sid with
      | none =>
        let r := getChanges (insertA sid cur subs) rest
        ⟨r.expired, r.renewed, sub :: r.newSubs, r.subs⟩
      | some old =>
        if old = cur then getChanges subs rest
        else
          let r := getChanges (insertA sid cur subs) rest
          if old = "active" ∧ cur = "expired" then
            ⟨sub :: r.expired, r.renewed, r.newSubs, r.subs⟩
          else if old = "expired" ∧ cur = "active" then
            ⟨r.expired, sub :: r.renewed, r.newSubs, r.subs⟩
          else r

/-- Method `TicketState.add` (monitor.py:234-235): insertion into the in-memory
`Set[str]`, modelled as a duplicate-free list. -/
def addKnown (tid : String) (known : List String) : List String :=
  if tid ∈ known then known else tid :: known

/-- The first-run loop body (monitor.py:906-908): record a fetched
ticket's `displayId` when it is truthy. -/
def firstRunAdd (known : List String) (t : Ticket) : List String :=
  if t.displayId = "" then known else addKnown t.displayId known

/-- The age filter applied to a newly-detected ticket before notification
(monitor.py:929-941): tickets with a parseable timestamp older than
`MAX_TICKET_AGE_HOURS` are skipped (`continue`); a missing or unparseable
timestamp falls through to the notification step. -/
def notifyFresh (now : Int) (t : Ticket) : Bool :=
  match t.createdAt with
  | none => true
  | some ts => !(now - ts > MAX_TICKET_AGE_HOURS * 3600)

/-- Outbound messages, identified by which send the code performs.
`ticketNotif`, `subExpired`, `subRenewed` and `subNew` are
`telegram.send_to_all(...)` calls (monitor.py:944,998,1008,1018);
`startedSummary`, `runLog`, `runSummary` and `sessionAlert` are
`telegram.send_to_dev(...)` calls (monitor.py:910,1044,1046,795). -/
inductive Msg where
  | ticketNotif (id : String)
  | subExpired (s : Subscription)
  | subRenewed (s : Subscription)
  | subNew (s : Subscription)
  | startedSummary
  | runLog
  | runSummary
  | sessionAlert
deriving DecidableEq

/-- The audience route of each message: which Telegram method the code
calls for it.  `toAll` = `send_to_all` (client + group + developer),
`toDev` = `send_to_dev` (developer only). -/
inductive Route where
  | toAll
  | toDev
deriving DecidableEq

/-- Which send method `Monitor.run` uses for each message (see `Msg`). -/
def msgRoute : Msg → Route
  | .ticketNotif _ => .toAll
  | .subExpired _ => .toAll
  | .subRenewed _ => .toAll
  | .subNew _ => .toAll
  | .startedSummary => .toDev
  | .runLog => .toDev
  | .runSummary => .toDev
  | .sessionAlert => .toDev

/-- Method `Telegram.format` (monitor.py:398-422).  Line 403 evaluates
`timedelta(hours=3)`, but `timedelta` is never imported (monitor.py:17
imports only `datetime` and `timezone`), so every call raises
`NameError` before producing a message: formatting always fails. -/
def formatTicket (_ : Ticket) : Option String := none

/-- The new-ticket loop (monitor.py:926-951).  Each newly-detected ticket
is first added to the in-memory known set; a stale ticket is then skipped
(`continue`); otherwise `Telegram.format` is evaluated — which always
raises (see `formatTicket`), aborting the run with the in-memory set as
it stood (`Except.error`).  Were formatting to succeed, the notification
would be appended (dead branch kept for structure). -/
def processNewTickets (now : Int) (known : List String) :
    List Ticket → Except (List String) (List String × List Msg)
  | [] => Except.ok (known, [])
  | t :: rest =>
    let known1 := addKnown t.displayId known
    if notifyFresh now t then
      match formatTicket t with
      | none => Except.error known1
      | some _ =>
        match processNewTickets now known1 rest with
        | Except.error k => Except.error k
        | Except.ok (k, msgs) => Except.ok (k, Msg.ticketNotif t.displayId :: msgs)
    else processNewTickets now known1 rest

/-- One page response of the subscriptions API as seen by
`_fetch_subscriptions_api` (monitor.py:822-849): either an error (the
`'error' in result` branch or a raised exception) or a page of items with
the server-reported total count. -/
inductive PageResult where
  | pageErr
  | pageOk (items : List Subscription) (totalCount : Nat)
deriving DecidableEq

/-- The pagination loop of `_fetch_subscriptions_api` (monitor.py:808-869),
driven by the list of successive page responses.  An error on any
requested page returns `none` (no partial collection); otherwise pages
accumulate until a short page or the accumulated count reaches the
reported total.  An exhausted response list models a transport failure
(`none`). -/
def fetchSubsLoop (acc : List Subscription) : List PageResult → Option (List Subscription × Nat)
  | [] => none
  | PageResult.pageErr :: _ => none
  | PageResult.pageOk items tc :: rest =>
    let acc2 := acc ++ items
    if items.length < SUB_PAGE_SIZE ∨ tc ≤ acc2.length then some (acc2, tc)
    else fetchSubsLoop acc2 rest

/-- The first-subscription-run initialization loop (monitor.py:971-982):
store each fetched subscription's normalized status under its id,
skipping falsy ids. -/
def initSubs (subs : List (String × String)) (items : List Subscription) :
    List (String × String) :=
  items.foldl
    (fun m sub =>
      match getSubId sub with
      | none => m
      | some sid => insertA sid (curStatus sub) m)
    subs

/-- The result of the ticket-API fetch when `Monitor.fetch` returns a
truthy value: the `items` list and `totalCount` (monitor.py:900,914). -/
structure TicketFetch where
  items : List Ticket
  totalCount : Nat
deriving DecidableEq

/-- The persisted state a run starts from and leaves behind: the
known-tickets file (`tickets` set and `last_run` stamp,
monitor.py:215-229), the subscription-state file (monitor.py:254-260),
and the session file contents (opaque, a version number). -/
structure RunState where
  known : List String
  subs : List (String × String)
  lastRun : Int
  session : Nat
deriving DecidableEq

/-- Per-run external inputs: the current time, the ticket-fetch outcome
(`none` = `fetch()` returned a falsy value), whether the failed-fetch
path sent the session-expired developer alert (monitor.py:795-803), the
subscription-API page responses, and the session-file contents written
by any browser/fetch activity. -/
structure RunInput where
  now : Int
  ticketFetch : Option TicketFetch
  sessionAlert : Bool
  subPages : List PageResult
  newSession : Nat
deriving DecidableEq

/-- How a run ended: rate-limit skip (monitor.py:882-889), fetch failure
(monitor.py:896-898), first-run early return (monitor.py:904-917),
a `NameError` crash in `Telegram.format` (see `formatTicket`), or the
normal completion path. -/
inductive Outcome where
  | skipped
  | fetchFailed
  | firstRun
  | crashed
  | completed
deriving DecidableEq

/-- What one `Monitor.run()` call produces: the persisted state after the
run, the outbound messages in send order, and the outcome. -/
structure RunResult where
  state : RunState
  msgs : List Msg
  outcome : Outcome
deriving DecidableEq

/-- The subscription-monitoring block of `Monitor.run`
(monitor.py:965-1032): fetch all pages; on failure skip the whole block
(state untouched, nothing sent); on a first subscription run initialize
the stored map silently; otherwise diff and emit one notification per
expired, renewed and new entry, in that order. -/
def subsPhase (stSubs : List (String × String)) (pages : List PageResult) :
    List (String × String) × List Msg :=
  match fetchSubsLoop [] pages with
  | none => (stSubs, [])
  | some (sitems, _) =>
    if stSubs.length = 0 then (initSubs stSubs sitems, [])
    else
      let c := getChanges stSubs sitems
      (c.subs,
       c.expired.map Msg.subExpired ++ c.renewed.map Msg.subRenewed
         ++ c.newSubs.map Msg.subNew)

/-- Method `Monitor.run` (monitor.py:871-1066).  In order: the run-guard check
against the persisted `last_run`; the ticket fetch; the first-run branch
(record all truthy ids, save, send the started summary to the developer,
return); the new-ticket loop (which aborts at the first ticket reaching
the notification step, see `processNewTickets`); `state.save()` (which
stamps `last_run = now`); the subscription fetch, first-run
initialization or diff, and per-change notifications; finally the run
log and run summary to the developer. -/
def Monitor.run (st : RunState) (inp : RunInput) : RunResult :=
  if st.lastRun > 0 ∧ inp.now - st.lastRun < MIN_RUN_INTERVAL then
    ⟨st, [], Outcome.skipped⟩
  else
    match inp.ticketFetch with
    | none =>
      ⟨{ st with session := inp.newSession },
       if inp.sessionAlert then [Msg.sessionAlert] else [], Outcome.fetchFailed⟩
    | some f =>
      if st.known.length = 0 then
        ⟨{ st with known := f.items.foldl firstRunAdd st.known,
                   lastRun := inp.now, session := inp.newSession },
         [Msg.startedSummary], Outcome.firstRun⟩
      else
        let newL := f.items.filter fun t =>
          t.displayId ≠ "" ∧ t.displayId ∉ st.known
        match processNewTickets inp.now st.known newL with
        | Except.error _ =>
          ⟨{ st with session := inp.newSession }, [], Outcome.crashed⟩
        | Except.ok (known2, tmsgs) =>
          let sp := subsPhase st.subs inp.subPages
          ⟨{ st with known := known2, subs := sp.1,
                     lastRun := inp.now, session := inp.newSession },
           tmsgs ++ sp.2 ++ [Msg.runLog, Msg.runSummary], Outcome.completed⟩

/-- A sequence of runs sharing the persisted state: each run starts from
the state files the previous run left behind. -/
def runSeq (st : RunState) : List RunInput → RunState × List Msg
  | [] => (st, [])
  | inp :: rest =>
    let r := Monitor.run st inp
    let t := runSeq r.state rest
    (t.1, r.msgs ++ t.2)

/-! ## The Telegram dispatcher (`Telegram`, monitor.py:301-396) -/

/-- The configured chat ids, as truthiness flags (monitor.py:302-308). -/
structure TelegramCfg where
  tokenSet : Bool
  chatIdSet : Bool
  groupChatIdSet : Bool
  devChatIdSet : Bool
deriving DecidableEq

/-- Flag `self.enabled = bool(self.token and self.chat_id)` (monitor.py:307). -/
def Telegram.enabled (c : TelegramCfg) : Bool := c.tokenSet && c.chatIdSet

/-- Flag `self.dev_enabled = bool(self.token and self.dev_chat_id)`
(monitor.py:308). -/
def Telegram.devEnabled (c : TelegramCfg) : Bool := c.tokenSet && c.devChatIdSet

/-- The outcome of one `aiohttp` `post`: a completed HTTP response with a
status code, or a raised transport exception. -/
inductive PostOutcome where
  | ok (status : Nat)
  | raise
deriving DecidableEq

/-- The audiences a post can be addressed to. -/
inductive Audience where
  | client
  | group
  | dev
deriving DecidableEq

/-- Method `Telegram.send` (monitor.py:310-374): when enabled, post to the
client (status unchecked), then — inside the same `try` block — post to
the group when configured and enabled by settings.  A raised post makes
the shared `except` return `False`, skipping whatever follows it.
Returns the boolean result and the posts attempted, in order.
`notifyGroup` is the settings-derived flag computed at
monitor.py:345-357. -/
def Telegram.send (c : TelegramCfg) (notifyGroup : Bool)
    (clientPost groupPost : PostOutcome) : Bool × List Audience :=
  if Telegram.enabled c then
    match clientPost with
    | PostOutcome.raise => (false, [Audience.client])
    | PostOutcome.ok _ =>
      if c.groupChatIdSet && notifyGroup then
        match groupPost with
        | PostOutcome.raise => (false, [Audience.client, Audience.group])
        | PostOutcome.ok _ => (true, [Audience.client, Audience.group])
      else (true, [Audience.client])
  else (true, [])

/-- Method `Telegram.send_to_dev` (monitor.py:376-388): when dev-enabled, post
to the developer chat; a raise returns `False`, otherwise the result is
`status == 200`. -/
def Telegram.sendToDev (c : TelegramCfg) (devPost : PostOutcome) :
    Bool × List Audience :=
  if Telegram.devEnabled c then
    match devPost with
    | PostOutcome.raise => (false, [Audience.dev])
    | PostOutcome.ok s => (s == 200, [Audience.dev])
  else (true, [])

/-- Method `Telegram.send_to_all` (monitor.py:390-396): `send` to the client and
group, then `send_to_dev`, ignoring both results; always returns
`True`. -/
def Telegram.sendToAll (c : TelegramCfg) (notifyGroup : Bool)
    (clientPost groupPost devPost : PostOutcome) : Bool × List Audience :=
  let s1 := Telegram.send c notifyGroup clientPost groupPost
  let s2 := Telegram.sendToDev c devPost
  (true, s1.2 ++ s2.2)

/-! ## Helper lemmas -/

/-- Membership after `TicketState.add`: the added id, or anything already
present. -/
theorem mem_addKnown {d tid : String} {k : List String} :
    d ∈ addKnown tid k ↔ d = tid ∨ d ∈ k := by
  unfold addKnown
  split
  · constructor
    · exact fun h => Or.inr h
    · rintro (rfl | h) <;> assumption
  · simp [List.mem_cons]

/-- Unfolding `get_changes` at a record whose id is absent from the
stored map: the record is reported as new and its normalized status is
stored before the rest is processed. -/
theorem getChanges_cons_new (subs : List (String × String)) (sub : Subscription)
    (rest : List Subscription) (sid : String) (hid : getSubId sub = some sid)
    (hl : lookupA subs sid = none) :
    getChanges subs (sub :: rest) =
      ⟨(getChanges (insertA sid (curStatus sub) subs) rest).expired,
       (getChanges (insertA sid (curStatus sub) subs) rest).renewed,
       sub :: (getChanges (insertA sid (curStatus sub) subs) rest).newSubs,
       (getChanges (insertA sid (curStatus sub) subs) rest).subs⟩ := by
  simp [getChanges, hid, hl]

/-- Unfolding `get_changes` at a record whose stored status equals its
normalized current status: nothing is reported and the map entry is left
as it is. -/
theorem getChanges_cons_same (subs : List (String × String)) (sub : Subscription)
    (rest : List Subscription) (sid old : String) (hid : getSubId sub = some sid)
    (hl : lookupA subs sid = some old) (he : old = curStatus sub) :
    getChanges subs (sub :: rest) = getChanges subs rest := by
  simp [getChanges, hid, hl, he]

/-- Unfolding `get_changes` at a record whose stored status differs from
its normalized current status: the new status is stored, and the record
is reported only for the active → expired and expired → active pairs. -/
theorem getChanges_cons_changed (subs : List (String × String)) (sub : Subscription)
    (rest : List Subscription) (sid old : String) (hid : getSubId sub = some sid)
    (hl : lookupA subs sid = some old) (hne : old ≠ curStatus sub) :
    getChanges subs (sub :: rest) =
      (if old = "active" ∧ curStatus sub = "expired" then
         ⟨sub :: (getChanges (insertA sid (curStatus sub) subs) rest).expired,
          (getChanges (insertA sid (curStatus sub) subs) rest).renewed,
          (getChanges (insertA sid (curStatus sub) subs) rest).newSubs,
          (getChanges (insertA sid (curStatus sub) subs) rest).subs⟩
       else if old = "expired" ∧ curStatus sub = "active" then
         ⟨(getChanges (insertA sid (curStatus sub) subs) rest).expired,
          sub :: (getChanges (insertA sid (curStatus sub) subs) rest).renewed,
          (getChanges (insertA sid (curStatus sub) subs) rest).newSubs,
          (getChanges (insertA sid (curStatus sub) subs) rest).subs⟩
       else getChanges (insertA sid (curStatus sub) subs) rest) := by
  simp only [getChanges, hid, hl]
  rw [if_neg hne]

/-- Unfolding the new-ticket loop one step: the head's id is added to the
in-memory set, and a head that passes the age filter reaches the
formatting step, which always raises (see `formatTicket`). -/
theorem processNewTickets_cons (now : Int) (k : List String) (t : Ticket)
    (rest : List Ticket) :
    processNewTickets now k (t :: rest) =
      (if notifyFresh now t then Except.error (addKnown t.displayId k)
       else processNewTickets now (addKnown t.displayId k) rest) := by
  simp [processNewTickets, formatTicket]

/-- When the new-ticket loop finishes without reaching the formatting
step: no messages were produced, the in-memory set only grew, every
processed ticket's id is in it, and nothing else entered it. -/
theorem processNewTickets_ok (now : Int) (k : List String) (l : List Ticket)
    (k2 : List String) (msgs : List Msg)
    (h : processNewTickets now k l = Except.ok (k2, msgs)) :
    msgs = [] ∧ (∀ d, d ∈ k → d ∈ k2) ∧ (∀ t ∈ l, t.displayId ∈ k2) ∧
    (∀ d, d ∈ k2 → d ∈ k ∨ ∃ t ∈ l, t.displayId = d) := by
  induction l generalizing k with
  | nil =>
    simp only [processNewTickets] at h
    obtain ⟨h1, h2⟩ := Prod.mk.injEq .. ▸ (Except.ok.injEq .. ▸ h)
    subst h1; subst h2
    exact ⟨rfl, fun d hd => hd, fun t ht => absurd ht (List.not_mem_nil t),
      fun d hd => Or.inl hd⟩
  | cons t rest ih =>
    rw [processNewTickets_cons] at h
    split at h
    · exact Except.noConfusion h
    · obtain ⟨h1, h2, h3, h4⟩ := ih (addKnown t.displayId k) h
      refine ⟨h1, ?_, ?_, ?_⟩
      · exact fun d hd => h2 d (mem_addKnown.mpr (Or.inr hd))
      · intro u hu
        rcases List.mem_cons.mp hu with rfl | hu2
        · exact h2 u.displayId (mem_addKnown.mpr (Or.inl rfl))
        · exact h3 u hu2
      · intro d hd
        rcases h4 d hd with hk | ⟨u, hu, hdu⟩
        · rcases mem_addKnown.mp hk with rfl | hk2
          · exact Or.inr ⟨t, List.mem_cons_self t rest, rfl⟩
          · exact Or.inl hk2
        · exact Or.inr ⟨u, List.mem_cons_of_mem t hu, hdu⟩

/-- Membership facts for the first-run recording fold: the set only
grows, every truthy fetched id enters it, and nothing else does. -/
theorem foldl_firstRunAdd_mem (items : List Ticket) (k : List String) :
    (∀ d, d ∈ k → d ∈ items.foldl firstRunAdd k) ∧
    (∀ t ∈ items, t.displayId ≠ "" → t.displayId ∈ items.foldl firstRunAdd k) ∧
    (∀ d, d ∈ items.foldl firstRunAdd k →
       d ∈ k ∨ ∃ t ∈ items, t.displayId = d ∧ d ≠ "") := by
  induction items generalizing k with
  | nil =>
    exact ⟨fun d hd => hd, fun t ht => absurd ht (List.not_mem_nil t),
      fun d hd => Or.inl hd⟩
  | cons t rest ih =>
    obtain ⟨ih1, ih2, ih3⟩ := ih (firstRunAdd k t)
    have hstep : ∀ d, d ∈ firstRunAdd k t →
        d ∈ k ∨ (t.displayId = d ∧ d ≠ "") := by
      intro d hd
      unfold firstRunAdd at hd
      split at hd
      · exact Or.inl hd
      · rcases mem_addKnown.mp hd with rfl | hk
        · next hne => exact Or.inr ⟨rfl, hne⟩
        · exact Or.inl hk
    refine ⟨?_, ?_, ?_⟩
    · intro d hd
      refine ih1 d ?_
      unfold firstRunAdd
      split
      · exact hd
      · exact mem_addKnown.mpr (Or.inr hd)
    · intro u hu hne
      rcases List.mem_cons.mp hu with rfl | hu2
      · refine ih1 u.displayId ?_
        unfold firstRunAdd
        rw [if_neg hne]
        exact mem_addKnown.mpr (Or.inl rfl)
      · exact ih2 u hu2 hne
    · intro d hd
      rcases ih3 d hd with hk | ⟨u, hu, hdu, hne⟩
      · rcases hstep d hk with hk2 | ⟨hdt, hne⟩
        · exact Or.inl hk2
        · exact Or.inr ⟨t, List.mem_cons_self t rest, hdt, hne⟩
      · exact Or.inr ⟨u, List.mem_cons_of_mem t hu, hdu, hne⟩

/-- A list of messages built by mapping a non-`ticketNotif` constructor
contains no ticket notifications. -/
theorem count_ticketNotif_map (d : String) (f : Subscription → Msg)
    (hf : ∀ s, f s ≠ Msg.ticketNotif d) (l : List Subscription) :
    (l.map f).count (Msg.ticketNotif d) = 0 := by
  rw [List.count_eq_zero]
  intro hmem
  obtain ⟨s, _, hs⟩ := List.mem_map.mp hmem
  exact hf s hs

/-- The subscription phase emits only subscription messages, never a
per-ticket notification. -/
theorem subsPhase_ticketNotif_count (s : List (String × String))
    (pages : List PageResult) (d : String) :
    (subsPhase s pages).2.count (Msg.ticketNotif d) = 0 := by
  unfold subsPhase
  split
  · rfl
  · split
    · rfl
    · simp [List.count_append,
        count_ticketNotif_map d Msg.subExpired (fun u h => Msg.noConfusion h),
        count_ticketNotif_map d Msg.subRenewed (fun u h => Msg.noConfusion h),
        count_ticketNotif_map d Msg.subNew (fun u h => Msg.noConfusion h)]

/-- No branch of `Monitor.run` sends a per-ticket notification: the only
path that could (the new-ticket loop) aborts in `Telegram.format` before
the send (see `formatTicket`). -/
theorem run_ticketNotif_count (st : RunState) (inp : RunInput) (d : String) :
    (Monitor.run st inp).msgs.count (Msg.ticketNotif d) = 0 := by
  unfold Monitor.run
  split
  · simp
  · split
    · split <;> simp [List.count_cons]
    · split
      · simp [List.count_cons]
      · dsimp only
        split
        · simp
        · next known2 tmsgs heq =>
          obtain ⟨hmsgs, -, -, -⟩ := processNewTickets_ok _ _ _ _ _ heq
          subst hmsgs
          simp [List.count_append, List.count_cons, subsPhase_ticketNotif_count]

/-- Across any sequence of runs sharing the persisted state, no
per-ticket notification is ever sent (see `run_ticketNotif_count`). -/
theorem runSeq_ticketNotif_count (st : RunState) (inps : List RunInput) (d : String) :
    (runSeq st inps).2.count (Msg.ticketNotif d) = 0 := by
  induction inps generalizing st with
  | nil => rfl
  | cons inp rest ih =>
    simp [runSeq, List.count_append, run_ticketNotif_count, ih]

/-- A run never records an empty `displayId`: both recording loops guard
on truthiness. -/
theorem run_known_no_empty (st : RunState) (inp : RunInput)
    (h : "" ∉ st.known) : "" ∉ (Monitor.run st inp).state.known := by
  unfold Monitor.run
  split
  · exact h
  · split
    · exact h
    · split
      · intro hmem
        simp only at hmem
        rcases (foldl_firstRunAdd_mem _ st.known).2.2 "" hmem with hk | ⟨t, -, -, hne⟩
        · exact h hk
        · exact hne rfl
      · dsimp only
        split
        · exact h
        · next known2 tmsgs heq =>
          obtain ⟨-, -, -, h4⟩ := processNewTickets_ok _ _ _ _ _ heq
          intro hmem
          simp only at hmem
          rcases h4 "" hmem with hk | ⟨t, ht, hdt⟩
          · exact h hk
          · have hp := List.mem_filter.mp ht
            exact (of_decide_eq_true hp.2).1 hdt

/-- When the pagination loop fails, the subscription phase leaves the
stored map untouched and sends nothing. -/
theorem subsPhase_none (s : List (String × String)) (pages : List PageResult)
    (h : fetchSubsLoop [] pages = none) : subsPhase s pages = (s, []) := by
  unfold subsPhase
  rw [h]

/-- A run whose subscription pagination fails leaves the stored
subscription map exactly as it was. -/
theorem run_subs_frame (st : RunState) (inp : RunInput)
    (h : fetchSubsLoop [] inp.subPages = none) :
    (Monitor.run st inp).state.subs = st.subs := by
  unfold Monitor.run
  split
  · rfl
  · split
    · rfl
    · split
      · rfl
      · dsimp only
        split
        · rfl
        · simp only [subsPhase_none st.subs inp.subPages h]

/-- The pagination loop on a response sequence containing an error
either aborts with `none`, or had already terminated on the pages before
the error (in which case the erroring page was never requested). -/
theorem fetchSubsLoop_err_split (acc : List Subscription) (ps rest : List PageResult) :
    fetchSubsLoop acc (ps ++ PageResult.pageErr :: rest) = none ∨
    ∃ r, fetchSubsLoop acc ps = some r ∧
      fetchSubsLoop acc (ps ++ PageResult.pageErr :: rest) = some r := by
  induction ps generalizing acc with
  | nil => exact Or.inl rfl
  | cons p ps ih =>
    cases p with
    | pageErr => exact Or.inl rfl
    | pageOk items tc =>
      have hunf : ∀ tail, fetchSubsLoop acc (PageResult.pageOk items tc :: tail) =
          (if items.length < SUB_PAGE_SIZE ∨ tc ≤ (acc ++ items).length
           then some (acc ++ items, tc) else fetchSubsLoop (acc ++ items) tail) :=
        fun tail => rfl
      rw [List.cons_append, hunf, hunf]
      by_cases hc : items.length < SUB_PAGE_SIZE ∨ tc ≤ (acc ++ items).length
      · rw [if_pos hc, if_pos hc]
        exact Or.inr ⟨(acc ++ items, tc), rfl, rfl⟩
      · rw [if_neg hc, if_neg hc]
        exact ih (acc ++ items)

/-! ## Claim theorems -/

/-- C1: across any sequence of runs sharing the persisted known-tickets
state, each `displayId` triggers at most one per-ticket notification,
and an id already in `KnownTicketsState` is never notified in any later
run.  (In this code the bound is degenerate: the notification path
always aborts in `Telegram.format` before sending — see `formatTicket` —
so the count is in fact zero; at-most-once holds a fortiori, and the
`state.add`-before-send ordering is at monitor.py:927,944.) -/
theorem ticket_notified_at_most_once (st : RunState) (inps : List RunInput)
    (d : String) :
    (runSeq st inps).2.count (Msg.ticketNotif d) ≤ 1 ∧
    (d ∈ st.known → (runSeq st inps).2.count (Msg.ticketNotif d) = 0) := by
  refine ⟨?_, fun _ => runSeq_ticketNotif_count st inps d⟩
  rw [runSeq_ticketNotif_count st inps d]
  exact Nat.zero_le 1

/-- Witness for C1 at a concrete two-run sequence that fetches the same
ticket id twice. -/
theorem ticket_notified_at_most_once_witness :
    (runSeq ⟨["A"], [], 0, 0⟩
        [⟨1000, some ⟨[⟨"A", some 999⟩], 1⟩, false, [], 0⟩,
         ⟨2000, some ⟨[⟨"A", some 999⟩], 1⟩, false, [], 0⟩]).2.count
      (Msg.ticketNotif "A") = 0 :=
  (ticket_notified_at_most_once ⟨["A"], [], 0, 0⟩
      [⟨1000, some ⟨[⟨"A", some 999⟩], 1⟩, false, [], 0⟩,
       ⟨2000, some ⟨[⟨"A", some 999⟩], 1⟩, false, [], 0⟩] "A").2 (by decide)

/-- C4 (code bug): the claim expects a newly-detected ticket older than
`MAX_TICKET_AGE_HOURS` to be recorded as known and silently skipped.  In
the code, any newly-detected ticket that passes the age filter reaches
`Telegram.format`, which raises `NameError` (`timedelta` is never
imported, monitor.py:17 vs :403), aborting the run before
`state.save()`.  Concretely: fetched items are a fresh ticket `T2`
followed by an old ticket `T1` (both unknown); the run crashes on `T2`,
`T1` is never examined, and nothing is persisted — `T1` is not added to
`KnownTicketsState`, contradicting the claim. -/
theorem old_ticket_lost_to_format_crash :
    Monitor.run ⟨["K"], [], 0, 7⟩
        ⟨1000000, some ⟨[⟨"T2", some 999000⟩, ⟨"T1", some 0⟩], 2⟩, false, [], 7⟩ =
      ⟨⟨["K"], [], 0, 7⟩, [], Outcome.crashed⟩ ∧
    (1000000 : Int) - 0 > MAX_TICKET_AGE_HOURS * 3600 ∧
    "T1" ∉ (Monitor.run ⟨["K"], [], 0, 7⟩
        ⟨1000000, some ⟨[⟨"T2", some 999000⟩, ⟨"T1", some 0⟩], 2⟩, false, [], 7⟩).state.known := by
  decide

/-- C5: when the persisted `last_run` is positive and the elapsed time is
below the 300-second minimum, the run is skipped before any other
activity: outcome `skipped`, no messages, and the known-tickets,
subscription-state and session contents all unchanged
(monitor.py:880-889). -/
theorem run_guard_skips (st : RunState) (inp : RunInput)
    (h1 : st.lastRun > 0) (h2 : inp.now - st.lastRun < MIN_RUN_INTERVAL) :
    Monitor.run st inp = ⟨st, [], Outcome.skipped⟩ := by
  unfold Monitor.run
  rw [if_pos ⟨h1, h2⟩]

/-- Witness for C5: `last_run` 100 seconds before now. -/
theorem run_guard_skips_witness :
    Monitor.run ⟨["K"], [("s", "active")], 900, 7⟩
        ⟨1000, some ⟨[⟨"T", some 999⟩], 1⟩, true, [PageResult.pageErr], 9⟩ =
      ⟨⟨["K"], [("s", "active")], 900, 7⟩, [], Outcome.skipped⟩ :=
  run_guard_skips ⟨["K"], [("s", "active")], 900, 7⟩
    ⟨1000, some ⟨[⟨"T", some 999⟩], 1⟩, true, [PageResult.pageErr], 9⟩
    (by decide) (by decide)

/-- C9: a fetched ticket with a missing or empty `displayId` is ignored
on every run of any sequence: the empty id never enters
`KnownTicketsState` and no notification for it is ever sent
(monitor.py:907,920 guard on truthy `displayId`). -/
theorem empty_displayId_ignored (st : RunState) (inps : List RunInput)
    (h : "" ∉ st.known) :
    "" ∉ (runSeq st inps).1.known ∧
    (runSeq st inps).2.count (Msg.ticketNotif "") = 0 := by
  refine ⟨?_, runSeq_ticketNotif_count st inps ""⟩
  induction inps generalizing st with
  | nil => exact h
  | cons inp rest ih =>
    exact ih (Monitor.run st inp).state (run_known_no_empty st inp h)

/-- Witness for C9: a sequence with a ticket whose `displayId` is
empty. -/
theorem empty_displayId_ignored_witness :
    "" ∉ (runSeq ⟨["K"], [], 0, 0⟩
        [⟨1000, some ⟨[⟨"", some 999⟩], 1⟩, false, [], 0⟩]).1.known ∧
    (runSeq ⟨["K"], [], 0, 0⟩
        [⟨1000, some ⟨[⟨"", some 999⟩], 1⟩, false, [], 0⟩]).2.count
      (Msg.ticketNotif "") = 0 :=
  empty_displayId_ignored ⟨["K"], [], 0, 0⟩
    [⟨1000, some ⟨[⟨"", some 999⟩], 1⟩, false, [], 0⟩] (by decide)

/-- Computation of the first-run branch of `Monitor.run`
(monitor.py:904-917): with an empty known set and a successful fetch,
the run records all truthy fetched ids, stamps `last_run`, sends exactly
the started summary, and returns. -/
theorem run_first_run_eq (st : RunState) (inp : RunInput) (f : TicketFetch)
    (hk : st.known = []) (hf : inp.ticketFetch = some f)
    (hg : ¬(st.lastRun > 0 ∧ inp.now - st.lastRun < MIN_RUN_INTERVAL)) :
    Monitor.run st inp =
      ⟨{ st with known := f.items.foldl firstRunAdd st.known,
                 lastRun := inp.now, session := inp.newSession },
       [Msg.startedSummary], Outcome.firstRun⟩ := by
  unfold Monitor.run
  rw [if_neg hg, hf]
  have hlen : st.known.length = 0 := by rw [hk]; rfl
  simp only [hlen]
  rw [if_pos trivial]

/-- C8: a run starting with an empty `KnownTicketsState` and a successful
ticket fetch sends no per-ticket notification to any audience, records
every truthy fetched `displayId`, persists the state (stamping
`last_run`), and sends exactly one started summary, routed to the
developer audience (`send_to_dev`, monitor.py:910). -/
theorem first_run_records_without_notifying (st : RunState) (inp : RunInput)
    (f : TicketFetch) (hk : st.known = []) (hf : inp.ticketFetch = some f)
    (hg : ¬(st.lastRun > 0 ∧ inp.now - st.lastRun < MIN_RUN_INTERVAL)) :
    (Monitor.run st inp).msgs = [Msg.startedSummary] ∧
    msgRoute Msg.startedSummary = Route.toDev ∧
    (Monitor.run st inp).outcome = Outcome.firstRun ∧
    (∀ t ∈ f.items, t.displayId ≠ "" → t.displayId ∈ (Monitor.run st inp).state.known) ∧
    (Monitor.run st inp).state.lastRun = inp.now ∧
    ∀ d, Msg.ticketNotif d ∉ (Monitor.run st inp).msgs := by
  rw [run_first_run_eq st inp f hk hf hg]
  refine ⟨rfl, rfl, rfl, ?_, rfl, ?_⟩
  · intro t ht hne
    exact (foldl_firstRunAdd_mem f.items st.known).2.1 t ht hne
  · intro d hmem
    rcases List.mem_cons.mp hmem with heq | hmem2
    · exact Msg.noConfusion heq
    · exact List.not_mem_nil _ hmem2

/-- Witness for C8 at a concrete first run. -/
theorem first_run_records_without_notifying_witness :
    (Monitor.run ⟨[], [("s", "active")], 0, 0⟩
        ⟨1000, some ⟨[⟨"A", some 999⟩, ⟨"", some 1⟩], 2⟩, false, [], 3⟩).msgs =
      [Msg.startedSummary] ∧
    msgRoute Msg.startedSummary = Route.toDev ∧
    (Monitor.run ⟨[], [("s", "active")], 0, 0⟩
        ⟨1000, some ⟨[⟨"A", some 999⟩, ⟨"", some 1⟩], 2⟩, false, [], 3⟩).outcome =
      Outcome.firstRun ∧
    (∀ t ∈ [(⟨"A", some 999⟩ : Ticket), ⟨"", some 1⟩], t.displayId ≠ "" →
       t.displayId ∈ (Monitor.run ⟨[], [("s", "active")], 0, 0⟩
         ⟨1000, some ⟨[⟨"A", some 999⟩, ⟨"", some 1⟩], 2⟩, false, [], 3⟩).state.known) ∧
    (Monitor.run ⟨[], [("s", "active")], 0, 0⟩
        ⟨1000, some ⟨[⟨"A", some 999⟩, ⟨"", some 1⟩], 2⟩, false, [], 3⟩).state.lastRun = 1000 ∧
    ∀ d, Msg.ticketNotif d ∉ (Monitor.run ⟨[], [("s", "active")], 0, 0⟩
        ⟨1000, some ⟨[⟨"A", some 999⟩, ⟨"", some 1⟩], 2⟩, false, [], 3⟩).msgs :=
  first_run_records_without_notifying ⟨[], [("s", "active")], 0, 0⟩
    ⟨1000, some ⟨[⟨"A", some 999⟩, ⟨"", some 1⟩], 2⟩, false, [], 3⟩
    ⟨[⟨"A", some 999⟩, ⟨"", some 1⟩], 2⟩ rfl rfl (by decide)

/-- C10: the first-run branch returns before the subscription block:
the stored subscription map is unchanged, the only message is the
started summary (in particular no run log and no run summary), and the
result is independent of the subscription-API responses — subscriptions
are neither fetched, nor diffed, nor initialized (monitor.py:904-917
returns before monitor.py:959-1032). -/
theorem first_run_skips_subscriptions (st : RunState) (inp : RunInput)
    (f : TicketFetch) (hk : st.known = []) (hf : inp.ticketFetch = some f)
    (hg : ¬(st.lastRun > 0 ∧ inp.now - st.lastRun < MIN_RUN_INTERVAL)) :
    (Monitor.run st inp).state.subs = st.subs ∧
    (Monitor.run st inp).msgs = [Msg.startedSummary] ∧
    Msg.runSummary ∉ (Monitor.run st inp).msgs ∧
    Msg.runLog ∉ (Monitor.run st inp).msgs ∧
    ∀ sp : List PageResult,
      Monitor.run st ⟨inp.now, inp.ticketFetch, inp.sessionAlert, sp, inp.newSession⟩ =
        Monitor.run st inp := by
  rw [run_first_run_eq st inp f hk hf hg]
  refine ⟨rfl, rfl, by simp, by simp, ?_⟩
  intro sp
  rw [run_first_run_eq st ⟨inp.now, inp.ticketFetch, inp.sessionAlert, sp, inp.newSession⟩
    f hk hf hg]

/-- Witness for C10 at a concrete first run with erroring subscription
pages. -/
theorem first_run_skips_subscriptions_witness :
    (Monitor.run ⟨[], [("s", "active")], 0, 0⟩
        ⟨1000, some ⟨[⟨"A", some 999⟩], 1⟩, false, [PageResult.pageErr], 3⟩).state.subs =
      [("s", "active")] ∧
    (Monitor.run ⟨[], [("s", "active")], 0, 0⟩
        ⟨1000, some ⟨[⟨"A", some 999⟩], 1⟩, false, [PageResult.pageErr], 3⟩).msgs =
      [Msg.startedSummary] ∧
    Msg.runSummary ∉ (Monitor.run ⟨[], [("s", "active")], 0, 0⟩
        ⟨1000, some ⟨[⟨"A", some 999⟩], 1⟩, false, [PageResult.pageErr], 3⟩).msgs ∧
    Msg.runLog ∉ (Monitor.run ⟨[], [("s", "active")], 0, 0⟩
        ⟨1000, some ⟨[⟨"A", some 999⟩], 1⟩, false, [PageResult.pageErr], 3⟩).msgs ∧
    ∀ sp : List PageResult,
      Monitor.run ⟨[], [("s", "active")], 0, 0⟩
          ⟨1000, some ⟨[⟨"A", some 999⟩], 1⟩, false, sp, 3⟩ =
        Monitor.run ⟨[], [("s", "active")], 0, 0⟩
          ⟨1000, some ⟨[⟨"A", some 999⟩], 1⟩, false, [PageResult.pageErr], 3⟩ :=
  first_run_skips_subscriptions ⟨[], [("s", "active")], 0, 0⟩
    ⟨1000, some ⟨[⟨"A", some 999⟩], 1⟩, false, [PageResult.pageErr], 3⟩
    ⟨[⟨"A", some 999⟩], 1⟩ rfl rfl (by decide)

/-- C6: when the subscription page responses contain a failure, either
the whole fetch returns an error — and then the stored subscription map
is completely untouched by the run, with nothing handed to the change
detector — or the loop had already terminated on the pages before the
failure, so the failing page was never requested (monitor.py:845-849
returns `None` on any page error; monitor.py:966 guards the whole
subscription block on a truthy result). -/
theorem pagination_failure_no_mutation (st : RunState) (inp : RunInput)
    (ps rest : List PageResult)
    (h : inp.subPages = ps ++ PageResult.pageErr :: rest) :
    (fetchSubsLoop [] inp.subPages = none ∧
       (Monitor.run st inp).state.subs = st.subs) ∨
    (∃ r, fetchSubsLoop [] ps = some r ∧
       fetchSubsLoop [] inp.subPages = some r) := by
  rcases fetchSubsLoop_err_split [] ps rest with hn | ⟨r, h1, h2⟩
  · have hn2 : fetchSubsLoop [] inp.subPages = none := by rw [h]; exact hn
    exact Or.inl ⟨hn2, run_subs_frame st inp hn2⟩
  · exact Or.inr ⟨r, h1, by rw [h]; exact h2⟩

/-- Witness for C6: a full page 1 (100 items, total 250) followed by an
error on page 2. -/
theorem pagination_failure_no_mutation_witness :
    (fetchSubsLoop []
         (PageResult.pageOk (List.replicate 100 ⟨some "a", none, "active"⟩) 250 ::
           [PageResult.pageErr]) = none ∧
       (Monitor.run ⟨["K"], [("s", "active")], 0, 0⟩
           ⟨1000, some ⟨[], 0⟩, false,
            PageResult.pageOk (List.replicate 100 ⟨some "a", none, "active"⟩) 250 ::
              [PageResult.pageErr], 0⟩).state.subs = [("s", "active")]) ∨
    (∃ r, fetchSubsLoop []
         [PageResult.pageOk (List.replicate 100 ⟨some "a", none, "active"⟩) 250] = some r ∧
       fetchSubsLoop []
         (PageResult.pageOk (List.replicate 100 ⟨some "a", none, "active"⟩) 250 ::
           [PageResult.pageErr]) = some r) :=
  pagination_failure_no_mutation ⟨["K"], [("s", "active")], 0, 0⟩
    ⟨1000, some ⟨[], 0⟩, false,
     PageResult.pageOk (List.replicate 100 ⟨some "a", none, "active"⟩) 250 ::
       [PageResult.pageErr], 0⟩
    [PageResult.pageOk (List.replicate 100 ⟨some "a", none, "active"⟩) 250]
    [] rfl

/-- C2 counterexample: the claim as stated says a transition notification
is emitted if and only if the old stored status differs from the new
normalized status.  At the concrete input below the id is present, the
old stored status `"pending"` (a passthrough value) differs from the new
normalized status `"active"`, yet `get_changes` emits no transition —
both the expired and the renewed lists are empty — and only updates the
stored status: the code reports only active ↔ expired pairs
(monitor.py:290-296). -/
theorem transition_iff_difference_fails :
    getSubId ⟨some "s1", none, "active"⟩ = some "s1" ∧
    lookupA [("s1", "pending")] "s1" = some "pending" ∧
    curStatus ⟨some "s1", none, "active"⟩ = "active" ∧
    ("pending" : String) ≠ "active" ∧
    getChanges [("s1", "pending")] [⟨some "s1", none, "active"⟩] =
      ⟨[], [], [], [("s1", "active")]⟩ := by
  decide

/-- C2 (amended): for a fetched subscription whose id is present in the
stored state, a transition notification is emitted if and only if the
old stored status differs from the new normalized status AND the pair is
active → expired (reported as expired) or expired → active (reported as
renewed); any other changed pair only updates the stored status.  An id
absent from the stored state is reported as new, never as a
transition. -/
theorem transition_reported_iff (st : List (String × String))
    (sub : Subscription) (rest : List Subscription) (sid : String)
    (hid : getSubId sub = some sid) :
    (∀ old, lookupA st sid = some old →
       (getChanges st (sub :: rest)).expired =
         (if old ≠ curStatus sub ∧ old = "active" ∧ curStatus sub = "expired"
          then [sub] else []) ++
           (getChanges (if old = curStatus sub then st
                        else insertA sid (curStatus sub) st) rest).expired ∧
       (getChanges st (sub :: rest)).renewed =
         (if old ≠ curStatus sub ∧ old = "expired" ∧ curStatus sub = "active"
          then [sub] else []) ++
           (getChanges (if old = curStatus sub then st
                        else insertA sid (curStatus sub) st) rest).renewed ∧
       (getChanges st (sub :: rest)).newSubs =
         (getChanges (if old = curStatus sub then st
                      else insertA sid (curStatus sub) st) rest).newSubs) ∧
    (lookupA st sid = none →
       (getChanges st (sub :: rest)).newSubs =
         sub :: (getChanges (insertA sid (curStatus sub) st) rest).newSubs ∧
       (getChanges st (sub :: rest)).expired =
         (getChanges (insertA sid (curStatus sub) st) rest).expired ∧
       (getChanges st (sub :: rest)).renewed =
         (getChanges (insertA sid (curStatus sub) st) rest).renewed) := by
  constructor
  · intro old hl
    by_cases he : old = curStatus sub
    · rw [getChanges_cons_same st sub rest sid old hid hl he, if_pos he]
      simp [he]
    · rw [getChanges_cons_changed st sub rest sid old hid hl he, if_neg he]
      by_cases hae : old = "active" ∧ curStatus sub = "expired"
      · rw [if_pos hae]
        obtain ⟨ha, hc⟩ := hae
        simp +decide [ha, hc]
      · rw [if_neg hae]
        by_cases hea : old = "expired" ∧ curStatus sub = "active"
        · rw [if_pos hea]
          obtain ⟨ha, hc⟩ := hea
          simp +decide [ha, hc]
        · rw [if_neg hea]
          simp [he, hae, hea]
  · intro hl
    rw [getChanges_cons_new st sub rest sid hid hl]
    exact ⟨rfl, rfl, rfl⟩

/-- Witness for C2 (amended) at a stored active subscription fetched as
expired: the transition is reported in the expired list. -/
theorem transition_reported_iff_witness :
    (getChanges [("a", "active")] [⟨some "a", none, "expired"⟩]).expired =
      [⟨some "a", none, "expired"⟩] ∧
    (getChanges [("a", "active")] [⟨some "a", none, "expired"⟩]).renewed = [] ∧
    (getChanges [("a", "active")] [⟨some "a", none, "expired"⟩]).newSubs = [] := by
  obtain ⟨h1, h2, h3⟩ :=
    (transition_reported_iff [("a", "active")] ⟨some "a", none, "expired"⟩
        [] "a" rfl).1 "active" rfl
  refine ⟨?_, ?_, ?_⟩
  · rw [h1]; decide
  · rw [h2]; decide
  · rw [h3]; decide

/-- C3: exhaustive classification of `get_changes` for a fetched
subscription with a truthy id: absent id → reported new (and stored);
stored active fetched expired → expired list; stored expired fetched
active → renewed list; any other changed pair → stored silently, no
report; unchanged → untouched.  Unrecognized raw statuses normalize to
themselves (after lowercasing), so they are stored as-is rather than
mapped to active/expired. -/
theorem subscription_classification (st : List (String × String))
    (sub : Subscription) (rest : List Subscription) (sid : String)
    (hid : getSubId sub = some sid) :
    (lookupA st sid = none →
       getChanges st (sub :: rest) =
         ⟨(getChanges (insertA sid (curStatus sub) st) rest).expired,
          (getChanges (insertA sid (curStatus sub) st) rest).renewed,
          sub :: (getChanges (insertA sid (curStatus sub) st) rest).newSubs,
          (getChanges (insertA sid (curStatus sub) st) rest).subs⟩) ∧
    (∀ old, lookupA st sid = some old →
       (old = "active" → curStatus sub = "expired" →
          getChanges st (sub :: rest) =
            ⟨sub :: (getChanges (insertA sid (curStatus sub) st) rest).expired,
             (getChanges (insertA sid (curStatus sub) st) rest).renewed,
             (getChanges (insertA sid (curStatus sub) st) rest).newSubs,
             (getChanges (insertA sid (curStatus sub) st) rest).subs⟩) ∧
       (old = "expired" → curStatus sub = "active" →
          getChanges st (sub :: rest) =
            ⟨(getChanges (insertA sid (curStatus sub) st) rest).expired,
             sub :: (getChanges (insertA sid (curStatus sub) st) rest).renewed,
             (getChanges (insertA sid (curStatus sub) st) rest).newSubs,
             (getChanges (insertA sid (curStatus sub) st) rest).subs⟩) ∧
       (old ≠ curStatus sub → ¬(old = "active" ∧ curStatus sub = "expired") →
        ¬(old = "expired" ∧ curStatus sub = "active") →
          getChanges st (sub :: rest) =
            getChanges (insertA sid (curStatus sub) st) rest) ∧
       (old = curStatus sub →
          getChanges st (sub :: rest) = getChanges st rest)) ∧
    (∀ s : String,
       ¬(s = "active" ∨ s = "نشط" ∨ s = "جاري") →
       ¬(s = "expired" ∨ s = "منتهي" ∨ s = "منتهية") →
       normalizeStatus s = s) := by
  refine ⟨?_, ?_, ?_⟩
  · intro hl
    exact getChanges_cons_new st sub rest sid hid hl
  · intro old hl
    refine ⟨?_, ?_, ?_, ?_⟩
    · intro ha hc
      have he : old ≠ curStatus sub := by rw [ha, hc]; decide
      rw [getChanges_cons_changed st sub rest sid old hid hl he,
        if_pos ⟨ha, hc⟩]
    · intro ha hc
      have he : old ≠ curStatus sub := by rw [ha, hc]; decide
      have hae : ¬(old = "active" ∧ curStatus sub = "expired") := by
        rw [ha, hc]; decide
      rw [getChanges_cons_changed st sub rest sid old hid hl he,
        if_neg hae, if_pos ⟨ha, hc⟩]
    · intro he hae hea
      rw [getChanges_cons_changed st sub rest sid old hid hl he,
        if_neg hae, if_neg hea]
    · intro he
      exact getChanges_cons_same st sub rest sid old hid hl he
  · intro s h1 h2
    unfold normalizeStatus
    rw [if_neg h1, if_neg h2]

/-- Witness for C3 at a stored active subscription fetched as expired. -/
theorem subscription_classification_witness :
    getChanges [("a", "active")] [⟨some "a", none, "expired"⟩] =
      ⟨[⟨some "a", none, "expired"⟩], [], [], [("a", "expired")]⟩ := by
  have h :=
    ((subscription_classification [("a", "active")] ⟨some "a", none, "expired"⟩
        [] "a" rfl).2.1 "active" rfl).1 rfl (by decide)
  rw [h]
  decide

/-- C7 counterexample: the claim says a failed send to the primary
(client) audience does not block the send to the secondary (group)
audience.  With every chat configured and the group enabled in settings,
a transport failure (raised exception) on the client post makes the
shared `except` in `Telegram.send` return before the group post
(monitor.py:360-374): the group is never attempted, though the developer
send still happens via `send_to_all`. -/
theorem client_failure_blocks_group :
    (Telegram.sendToAll ⟨true, true, true, true⟩ true
        PostOutcome.raise (PostOutcome.ok 200) (PostOutcome.ok 200)).2 =
      [Audience.client, Audience.dev] ∧
    Audience.group ∉ (Telegram.sendToAll ⟨true, true, true, true⟩ true
        PostOutcome.raise (PostOutcome.ok 200) (PostOutcome.ok 200)).2 := by
  decide

/-- C7 (amended): `send_to_all` always reports success and always
attempts the developer send (exactly when dev-enabled), whatever happens
to the client and group posts — so notification failures never abort the
run and never block the developer audience.  A client post that
completes with an error HTTP status does not block the group post (the
status is unchecked); but a client post that raises skips the group post
of the same call, because both share one `try` block. -/
theorem send_failure_isolation (c : TelegramCfg) (ng : Bool)
    (cp gp dp : PostOutcome) :
    (Telegram.sendToAll c ng cp gp dp).1 = true ∧
    (Audience.dev ∈ (Telegram.sendToAll c ng cp gp dp).2 ↔
       Telegram.devEnabled c = true) ∧
    (∀ s : Nat, Telegram.enabled c = true → c.groupChatIdSet = true →
       ng = true →
       Audience.group ∈ (Telegram.sendToAll c ng (PostOutcome.ok s) gp dp).2) ∧
    (Audience.group ∉ (Telegram.sendToAll c ng PostOutcome.raise gp dp).2) := by
  obtain ⟨t, ch, g, dv⟩ := c
  refine ⟨rfl, ?_, ?_, ?_⟩
  · cases t <;> cases ch <;> cases g <;> cases dv <;> cases ng <;>
      cases cp <;> cases gp <;> cases dp <;>
      simp [Telegram.sendToAll, Telegram.send, Telegram.sendToDev,
        Telegram.enabled, Telegram.devEnabled]
  · intro s ht hg hng
    subst hng
    cases t <;> cases ch <;> cases g <;> cases dv <;> cases gp <;> cases dp <;>
      simp_all [Telegram.sendToAll, Telegram.send, Telegram.sendToDev,
        Telegram.enabled, Telegram.devEnabled]
  · cases t <;> cases ch <;> cases g <;> cases dv <;> cases ng <;>
      cases gp <;> cases dp <;>
      simp [Telegram.sendToAll, Telegram.send, Telegram.sendToDev,
        Telegram.enabled, Telegram.devEnabled]

/-- Witness for C7 (amended): a client post returning HTTP 500 does not
block the group post. -/
theorem send_failure_isolation_witness :
    Audience.group ∈ (Telegram.sendToAll ⟨true, true, true, true⟩ true
        (PostOutcome.ok 500) PostOutcome.raise (PostOutcome.ok 200)).2 :=
  (send_failure_isolation ⟨true, true, true, true⟩ true (PostOutcome.ok 500)
      PostOutcome.raise (PostOutcome.ok 200)).2.2.1 500 rfl rfl rfl
